import Mathlib

/-!
# createProgressCharts

A shallow embedding of `src/html/create_progress_charts_fixed.js`.

The JavaScript function reads a loosely structured `stats` value, and for each
of three canvases that exists in the document it builds a Chart.js
configuration object literal and hands it to `new Chart(ctx, config)`.

Modelling decisions:

* JavaScript values are the inductive type `JSVal`; numbers are `JSNum`
  (the finite doubles are embedded in the rationals, with the special values
  `NaN`, `+Infinity`, `-Infinity` and `-0` kept apart, since the only thing the
  program does with a number is test its truthiness).
* `a || b` is `jsOr`, `a.k` is `getProp` (which raises a `TypeError` on
  `undefined` and `null`), `a?.k` is `optChain`.
* `document.getElementById(id)` is answered by a `Dom`, a map from element ids
  to whether an element with that id exists, and every such element is taken
  to be a canvas, so that `getContext` does not raise.
* Each `new Chart(ctx, config)` is recorded as a `Call` in a log.  The
  constructor is that of Chart.js 3 or later, the versions that read the
  `scales: { y: ... }` option the source writes: it refuses a canvas that
  already carries a chart ("Canvas is already in use"), and accepts any other.
  The program never destroys a chart, so a canvas carries one exactly when the
  log holds a call on it.
* A run is a function from the document and the log so far to a result
  (normal completion or a raised error) and the log afterwards.
-/

namespace ProgressCharts

/-! ## JavaScript values -/

/-- A JavaScript number: the finite values as rationals (`fin 0` is `+0`), and
the four special values. -/
inductive JSNum where
  | nan
  | posInf
  | negInf
  | negZero
  | fin (q : ℚ)
  deriving DecidableEq

/-- The values this program can meet: primitives, arrays and plain objects
(an object is the list of its own properties). -/
inductive JSVal where
  | undefined
  | null
  | bool (b : Bool)
  | num (n : JSNum)
  | str (s : String)
  | arr (xs : List JSVal)
  | obj (fields : List (String × JSVal))

/-- The errors a call can end with: the `TypeError` of a member access on
`undefined` or `null`, and the `Error` with which the Chart.js constructor
refuses a canvas that already carries a chart. -/
inductive JSError where
  | typeError
  | canvasInUse
  deriving DecidableEq

/-- ToBoolean on a number: `0`, `-0` and `NaN` are falsy. -/
def JSNum.truthy : JSNum → Bool
  | .nan => false
  | .negZero => false
  | .posInf => true
  | .negInf => true
  | .fin q => decide (q ≠ 0)

/-- ToBoolean: `undefined`, `null`, `false`, `0`, `-0`, `NaN` and the empty
string are falsy; every array and every object is truthy, empty ones too. -/
def JSVal.truthy : JSVal → Bool
  | .undefined => false
  | .null => false
  | .bool b => b
  | .num n => n.truthy
  | .str s => decide (s ≠ "")
  | .arr _ => true
  | .obj _ => true

/-- Whether a value is `undefined` or `null`. -/
def JSVal.isNullish : JSVal → Bool
  | .undefined => true
  | .null => true
  | _ => false

/-- Own-property lookup in a property list; a missing property reads as
`undefined`. -/
def lookupField : List (String × JSVal) → String → JSVal
  | [], _ => .undefined
  | (k, v) :: rest, name => if k = name then v else lookupField rest name

/-- Reading property `name` of a value that is neither `undefined` nor `null`.
Only the names `daily_words`, `weekly_trend`, `labels`, `data`,
`mastered_words`, `learning_words`, `unmastered_words` are read by the program
(and the names of the configuration literals by the statements below); none of
them is a built-in property of a primitive or of an array, so on those the
result is `undefined`. -/
def JSVal.get : JSVal → String → JSVal
  | .obj fields, name => lookupField fields name
  | _, _ => .undefined

/-- The member access `v.name`: a `TypeError` when `v` is `undefined` or
`null`. -/
def getProp (v : JSVal) (name : String) : Except JSError JSVal :=
  if v.isNullish then .error .typeError else .ok (v.get name)

/-- The optional chain `v?.name`: `undefined` when `v` is `undefined` or
`null`. -/
def optChain (v : JSVal) (name : String) : JSVal :=
  if v.isNullish then .undefined else v.get name

/-- The operator `a || b`. -/
def jsOr (a b : JSVal) : JSVal :=
  if a.truthy then a else b

/-- A finite number literal. -/
def lit (q : ℚ) : JSVal := .num (.fin q)

/-! ## The document and the chart renderer -/

/-- The document: whether `document.getElementById(id)` finds an element. -/
abbrev Dom := String → Bool

/-- One `new Chart(ctx, config)`: the id of the canvas whose 2d context was
passed, and the configuration object. -/
structure Call where
  surface : String
  config : JSVal

/-- A computation in the document: from the log of renderer calls so far to a
result and the log afterwards. -/
def ChartM (α : Type) : Type := Dom → List Call → Except JSError α × List Call

/-- Normal completion. -/
def ChartM.pure {α : Type} (a : α) : ChartM α := fun _ log => (.ok a, log)

/-- Sequencing: a raised error ends the run, the log is kept. -/
def ChartM.bind {α β : Type} (m : ChartM α) (f : α → ChartM β) : ChartM β :=
  fun dom log =>
    match m dom log with
    | (.ok a, log1) => f a dom log1
    | (.error e, log1) => (.error e, log1)

instance : Monad ChartM where
  pure := ChartM.pure
  bind := ChartM.bind

/-- The call `document.getElementById(id)`, as the truthiness of its result. -/
def getElementById (id : String) : ChartM Bool := fun dom log => (.ok (dom id), log)

/-- Whether the canvas `surface` already carries a chart: whether the
constructor was called on it before. -/
def canvasInUse (log : List Call) (surface : String) : Bool :=
  log.any (fun c => c.surface == surface)

/-- The statement `new Chart(canvas.getContext("2d"), config)`.  The call is
recorded with the configuration it was handed; the constructor raises when the
canvas already carries a chart. -/
def newChart (surface : String) (config : JSVal) : ChartM Unit :=
  fun _ log =>
    if canvasInUse log surface then (.error .canvasInUse, log ++ [⟨surface, config⟩])
    else (.ok (), log ++ [⟨surface, config⟩])

/-- Evaluating an expression that may raise. -/
def evalExpr {α : Type} (e : Except JSError α) : ChartM α := fun _ log => (e, log)

/-! ## The configuration literals -/

/-- The fallback labels of the bar chart. -/
def weekdayLabels : JSVal :=
  .arr [.str "周一", .str "周二", .str "周三", .str "周四", .str "周五", .str "周六", .str "周日"]

/-- The fallback data of the bar chart. -/
def weekdayData : JSVal :=
  .arr [lit 45, lit 63, lit 78, lit 52, lit 91, lit 105, lit 68]

/-- The fallback labels of the line chart. -/
def weekLabels : JSVal :=
  .arr [.str "第1周", .str "第2周", .str "第3周", .str "第4周", .str "第5周", .str "第6周"]

/-- The fallback data of the line chart. -/
def weekData : JSVal :=
  .arr [lit 250, lit 480, lit 690, lit 850, lit 1020, lit 1254]

/-- The object literal of lines 7-28, with the two computed values as
arguments. -/
def barConfig (labels data : JSVal) : JSVal :=
  .obj [
    ("type", .str "bar"),
    ("data", .obj [
      ("labels", labels),
      ("datasets", .arr [.obj [
        ("label", .str "学习单词数"),
        ("data", data),
        ("backgroundColor", .str "rgba(52, 152, 219, 0.6)"),
        ("borderColor", .str "rgba(52, 152, 219, 1)"),
        ("borderWidth", lit 1)]])]),
    ("options", .obj [
      ("responsive", .bool true),
      ("maintainAspectRatio", .bool false),
      ("scales", .obj [("y", .obj [("beginAtZero", .bool true)])])])]

/-- The object literal of lines 35-62, with the three computed values as
arguments. -/
def pieConfig (mastered learning unmastered : JSVal) : JSVal :=
  .obj [
    ("type", .str "pie"),
    ("data", .obj [
      ("labels", .arr [.str "已掌握", .str "学习中", .str "未掌握"]),
      ("datasets", .arr [.obj [
        ("data", .arr [mastered, learning, unmastered]),
        ("backgroundColor", .arr [
          .str "rgba(39, 174, 96, 0.7)",
          .str "rgba(243, 156, 18, 0.7)",
          .str "rgba(231, 76, 60, 0.7)"]),
        ("borderColor", .arr [
          .str "rgba(39, 174, 96, 1)",
          .str "rgba(243, 156, 18, 1)",
          .str "rgba(231, 76, 60, 1)"]),
        ("borderWidth", lit 1)]])]),
    ("options", .obj [
      ("responsive", .bool true),
      ("maintainAspectRatio", .bool false)])]

/-- The object literal of lines 69-90, with the two computed values as
arguments. -/
def lineConfig (labels data : JSVal) : JSVal :=
  .obj [
    ("type", .str "line"),
    ("data", .obj [
      ("labels", labels),
      ("datasets", .arr [.obj [
        ("label", .str "累计学习单词"),
        ("data", data),
        ("borderColor", .str "rgba(52, 152, 219, 1)"),
        ("backgroundColor", .str "rgba(52, 152, 219, 0.1)"),
        ("tension", lit 0.4),
        ("fill", .bool true)]])]),
    ("options", .obj [
      ("responsive", .bool true),
      ("maintainAspectRatio", .bool false),
      ("scales", .obj [("y", .obj [("beginAtZero", .bool true)])])])]

/-! ## The program -/

/-- The function `createProgressCharts(stats)`.  The computed members of each
object literal are evaluated in source order, before the constructor runs. -/
def createProgressCharts (stats : JSVal) : ChartM Unit := do
  let dailyWordsChart ← getElementById "daily-words-chart"
  if dailyWordsChart then
    let labels := jsOr (optChain (← evalExpr (getProp stats "daily_words")) "labels") weekdayLabels
    let data := jsOr (optChain (← evalExpr (getProp stats "daily_words")) "data") weekdayData
    newChart "daily-words-chart" (barConfig labels data)
  let masteryChart ← getElementById "mastery-chart"
  if masteryChart then
    let mastered := jsOr (← evalExpr (getProp stats "mastered_words")) (lit 87)
    let learning := jsOr (← evalExpr (getProp stats "learning_words")) (lit 10)
    let unmastered := jsOr (← evalExpr (getProp stats "unmastered_words")) (lit 3)
    newChart "mastery-chart" (pieConfig mastered learning unmastered)
  let trendChart ← getElementById "learning-trend-chart"
  if trendChart then
    let labels := jsOr (optChain (← evalExpr (getProp stats "weekly_trend")) "labels") weekLabels
    let data := jsOr (optChain (← evalExpr (getProp stats "weekly_trend")) "data") weekData
    newChart "learning-trend-chart" (lineConfig labels data)

/-- A call of `createProgressCharts(stats)` in document `dom`, from an empty
log: no canvas carries a chart yet. -/
def run (dom : Dom) (stats : JSVal) : Except JSError Unit × List Call :=
  createProgressCharts stats dom []

/-- The charts handed to the renderer by a call, in order. -/
def rendered (dom : Dom) (stats : JSVal) : List Call := (run dom stats).2

/-- Whether the call raised. -/
def raised (dom : Dom) (stats : JSVal) : Option JSError :=
  match (run dom stats).1 with
  | .ok _ => none
  | .error e => some e

/-! ## Reading a call log and a configuration -/

/-- The configuration handed to the renderer for canvas `id`, if any. -/
def chartOn : List Call → String → Option JSVal
  | [], _ => none
  | c :: rest, id => if c.surface = id then some c.config else chartOn rest id

/-- Element `i` of an array value (`undefined` out of range or on a
non-array). -/
def JSVal.index : JSVal → Nat → JSVal
  | .arr xs, i => xs.getD i .undefined
  | _, _ => .undefined

/-- The member `config.type`. -/
def kindOf (config : JSVal) : JSVal := config.get "type"

/-- The member `config.data.labels`. -/
def labelsOf (config : JSVal) : JSVal := (config.get "data").get "labels"

/-- The member `config.data.datasets[0]`. -/
def seriesOf (config : JSVal) : JSVal := ((config.get "data").get "datasets").index 0

/-- The member `config.data.datasets[0].data`. -/
def dataOf (config : JSVal) : JSVal := (seriesOf config).get "data"

/-- The member `config.options`. -/
def optionsOf (config : JSVal) : JSVal := config.get "options"

/-- The comparison `n >= 0` on numbers. -/
def JSNum.isNonNeg : JSNum → Bool
  | .fin q => decide (0 ≤ q)
  | .posInf => true
  | .negZero => true
  | .nan => false
  | .negInf => false

/-- The comparison `n > 0` on numbers. -/
def JSNum.isPositive : JSNum → Bool
  | .fin q => decide (0 < q)
  | .posInf => true
  | .negZero => false
  | .nan => false
  | .negInf => false

/-- The document in which all three canvases exist. -/
def allSurfaces : Dom := fun _ => true

/-- The document in which no canvas exists. -/
def noSurface : Dom := fun _ => false

/-! ## The configurations of a run -/

/-- The bar chart configuration built from a `stats` that is neither
`undefined` nor `null`. -/
def dailyWordsSpec (stats : JSVal) : JSVal :=
  barConfig (jsOr (optChain (stats.get "daily_words") "labels") weekdayLabels)
    (jsOr (optChain (stats.get "daily_words") "data") weekdayData)

/-- The pie chart configuration built from such a `stats`. -/
def masterySpec (stats : JSVal) : JSVal :=
  pieConfig (jsOr (stats.get "mastered_words") (lit 87))
    (jsOr (stats.get "learning_words") (lit 10))
    (jsOr (stats.get "unmastered_words") (lit 3))

/-- The line chart configuration built from such a `stats`. -/
def trendSpec (stats : JSVal) : JSVal :=
  lineConfig (jsOr (optChain (stats.get "weekly_trend") "labels") weekLabels)
    (jsOr (optChain (stats.get "weekly_trend") "data") weekData)

/-- The calls appended by a run on a `stats` that is neither `undefined` nor
`null`. -/
def specsFor (dom : Dom) (stats : JSVal) : List Call :=
  (if dom "daily-words-chart" then [⟨"daily-words-chart", dailyWordsSpec stats⟩] else [])
    ++ (if dom "mastery-chart" then [⟨"mastery-chart", masterySpec stats⟩] else [])
    ++ (if dom "learning-trend-chart" then [⟨"learning-trend-chart", trendSpec stats⟩] else [])

/-- The document in which exactly the canvases of the pie and line charts
exist. -/
def withoutDailyCanvas : Dom := fun id => id != "daily-words-chart"

/-- The labels of the chart rendered on canvas `id`, if one was. -/
def labelsOn (calls : List Call) (id : String) : Option JSVal := (chartOn calls id).map labelsOf

/-- The data of the first series of the chart rendered on canvas `id`, if one
was. -/
def dataOn (calls : List Call) (id : String) : Option JSVal := (chartOn calls id).map dataOf

/-- Value `i` of the pie dataset of a call, if the pie chart was rendered. -/
def pieValue (dom : Dom) (stats : JSVal) (i : Nat) : Option JSVal :=
  (dataOn (rendered dom stats) "mastery-chart").map (fun d => d.index i)

/-- The constructor calls made by a call of `createProgressCharts(stats)` that
starts from the log `log`. -/
def appended (stats : JSVal) (dom : Dom) (log : List Call) : List Call :=
  (createProgressCharts stats dom log).2.drop log.length

/-- The document in which the three canvases exist and nothing else does. -/
def onlyTheThree : Dom := fun id =>
  id == "daily-words-chart" || id == "mastery-chart" || id == "learning-trend-chart"

/-- The length of a sequence value. -/
def lengthOf : JSVal → Option Nat
  | .arr xs => some xs.length
  | _ => none

/-! ## The run, in closed form -/

theorem createProgressCharts_of_not_nullish (stats : JSVal) (h : stats.isNullish = false)
    (dom : Dom) (log : List Call)
    (h1 : canvasInUse log "daily-words-chart" = false)
    (h2 : canvasInUse log "mastery-chart" = false)
    (h3 : canvasInUse log "learning-trend-chart" = false) :
    createProgressCharts stats dom log = (.ok (), log ++ specsFor dom stats) := by
  simp only [canvasInUse] at h1 h2 h3
  cases hd : dom "daily-words-chart" <;> cases hm : dom "mastery-chart" <;>
    cases ht : dom "learning-trend-chart" <;>
    simp [createProgressCharts, bind, ChartM.bind, getElementById, newChart, evalExpr, getProp, h,
      hd, hm, ht, dailyWordsSpec, masterySpec, trendSpec, specsFor, pure, ChartM.pure,
      canvasInUse, h1, h2, h3]

theorem createProgressCharts_of_nullish (stats : JSVal) (h : stats.isNullish = true)
    (dom : Dom) (log : List Call) :
    createProgressCharts stats dom log =
      (if dom "daily-words-chart" || dom "mastery-chart" || dom "learning-trend-chart"
        then .error .typeError else .ok (), log) := by
  cases hd : dom "daily-words-chart" <;> cases hm : dom "mastery-chart" <;>
    cases ht : dom "learning-trend-chart" <;>
    simp [createProgressCharts, bind, ChartM.bind, getElementById, newChart, evalExpr, getProp, h,
      hd, hm, ht, pure, ChartM.pure]

theorem rendered_of_not_nullish (dom : Dom) (stats : JSVal) (h : stats.isNullish = false) :
    rendered dom stats = specsFor dom stats := by
  simp [rendered, run, createProgressCharts_of_not_nullish stats h dom [] rfl rfl rfl]

theorem raised_of_not_nullish (dom : Dom) (stats : JSVal) (h : stats.isNullish = false) :
    raised dom stats = none := by
  simp [raised, run, createProgressCharts_of_not_nullish stats h dom [] rfl rfl rfl]

theorem rendered_of_nullish (dom : Dom) (stats : JSVal) (h : stats.isNullish = true) :
    rendered dom stats = [] := by
  simp [rendered, run, createProgressCharts_of_nullish stats h]

theorem raised_of_nullish (dom : Dom) (stats : JSVal) (h : stats.isNullish = true) :
    raised dom stats =
      if dom "daily-words-chart" || dom "mastery-chart" || dom "learning-trend-chart"
        then some .typeError else none := by
  cases hd : dom "daily-words-chart" <;> cases hm : dom "mastery-chart" <;>
    cases ht : dom "learning-trend-chart" <;>
    simp [raised, run, createProgressCharts_of_nullish stats h, hd, hm, ht]

theorem chartOn_daily (dom : Dom) (stats : JSVal) (h : stats.isNullish = false)
    (hd : dom "daily-words-chart" = true) :
    chartOn (rendered dom stats) "daily-words-chart" = some (dailyWordsSpec stats) := by
  simp [rendered_of_not_nullish dom stats h, specsFor, hd, chartOn]

theorem chartOn_mastery (dom : Dom) (stats : JSVal) (h : stats.isNullish = false)
    (hm : dom "mastery-chart" = true) :
    chartOn (rendered dom stats) "mastery-chart" = some (masterySpec stats) := by
  cases hd : dom "daily-words-chart" <;>
    simp [rendered_of_not_nullish dom stats h, specsFor, hd, hm, chartOn]

theorem chartOn_trend (dom : Dom) (stats : JSVal) (h : stats.isNullish = false)
    (ht : dom "learning-trend-chart" = true) :
    chartOn (rendered dom stats) "learning-trend-chart" = some (trendSpec stats) := by
  cases hd : dom "daily-words-chart" <;> cases hm : dom "mastery-chart" <;>
    simp [rendered_of_not_nullish dom stats h, specsFor, hd, hm, ht, chartOn]

theorem isNullish_false_of_get_ne {v : JSVal} {name : String}
    (h : v.get name ≠ .undefined) : v.isNullish = false := by
  cases v <;> simp_all [JSVal.get, JSVal.isNullish]

theorem labelsOn_daily (dom : Dom) (stats : JSVal) (h : stats.isNullish = false)
    (hd : dom "daily-words-chart" = true) :
    labelsOn (rendered dom stats) "daily-words-chart"
      = some (jsOr (optChain (stats.get "daily_words") "labels") weekdayLabels) := by
  simp [labelsOn, chartOn_daily dom stats h hd, dailyWordsSpec, barConfig, labelsOf, JSVal.get,
    lookupField]

theorem dataOn_daily (dom : Dom) (stats : JSVal) (h : stats.isNullish = false)
    (hd : dom "daily-words-chart" = true) :
    dataOn (rendered dom stats) "daily-words-chart"
      = some (jsOr (optChain (stats.get "daily_words") "data") weekdayData) := by
  simp [dataOn, chartOn_daily dom stats h hd, dailyWordsSpec, barConfig, dataOf, seriesOf,
    JSVal.get, JSVal.index, lookupField]

theorem labelsOn_trend (dom : Dom) (stats : JSVal) (h : stats.isNullish = false)
    (ht : dom "learning-trend-chart" = true) :
    labelsOn (rendered dom stats) "learning-trend-chart"
      = some (jsOr (optChain (stats.get "weekly_trend") "labels") weekLabels) := by
  simp [labelsOn, chartOn_trend dom stats h ht, trendSpec, lineConfig, labelsOf, JSVal.get,
    lookupField]

theorem dataOn_trend (dom : Dom) (stats : JSVal) (h : stats.isNullish = false)
    (ht : dom "learning-trend-chart" = true) :
    dataOn (rendered dom stats) "learning-trend-chart"
      = some (jsOr (optChain (stats.get "weekly_trend") "data") weekData) := by
  simp [dataOn, chartOn_trend dom stats h ht, trendSpec, lineConfig, dataOf, seriesOf,
    JSVal.get, JSVal.index, lookupField]

theorem labelsOn_mastery (dom : Dom) (stats : JSVal) (h : stats.isNullish = false)
    (hm : dom "mastery-chart" = true) :
    labelsOn (rendered dom stats) "mastery-chart"
      = some (.arr [.str "已掌握", .str "学习中", .str "未掌握"]) := by
  simp [labelsOn, chartOn_mastery dom stats h hm, masterySpec, pieConfig, labelsOf, JSVal.get,
    lookupField]

theorem dataOn_mastery (dom : Dom) (stats : JSVal) (h : stats.isNullish = false)
    (hm : dom "mastery-chart" = true) :
    dataOn (rendered dom stats) "mastery-chart"
      = some (.arr [jsOr (stats.get "mastered_words") (lit 87),
          jsOr (stats.get "learning_words") (lit 10),
          jsOr (stats.get "unmastered_words") (lit 3)]) := by
  simp [dataOn, chartOn_mastery dom stats h hm, masterySpec, pieConfig, dataOf, seriesOf,
    JSVal.get, JSVal.index, lookupField]

theorem jsOr_of_nullish {v : JSVal} (h : v.isNullish = true) (d : JSVal) : jsOr v d = d := by
  cases v <;> simp_all [JSVal.isNullish, jsOr, JSVal.truthy]

theorem jsOr_undefined (d : JSVal) : jsOr .undefined d = d := rfl

theorem jsOr_arr (xs : List JSVal) (d : JSVal) : jsOr (.arr xs) d = .arr xs := by
  simp [jsOr, JSVal.truthy]

theorem optChain_of_nullish {v : JSVal} (h : v.isNullish = true) (name : String) :
    optChain v name = .undefined := by
  simp [optChain, h]

theorem optChain_eq_get (v : JSVal) (name : String) : optChain v name = v.get name := by
  cases v <;> simp [optChain, JSVal.isNullish, JSVal.get]

theorem pieValue_zero (dom : Dom) (stats : JSVal) (h : stats.isNullish = false)
    (hm : dom "mastery-chart" = true) :
    pieValue dom stats 0 = some (jsOr (stats.get "mastered_words") (lit 87)) := by
  simp [pieValue, dataOn_mastery dom stats h hm, JSVal.index]

theorem pieValue_one (dom : Dom) (stats : JSVal) (h : stats.isNullish = false)
    (hm : dom "mastery-chart" = true) :
    pieValue dom stats 1 = some (jsOr (stats.get "learning_words") (lit 10)) := by
  simp [pieValue, dataOn_mastery dom stats h hm, JSVal.index]

theorem pieValue_two (dom : Dom) (stats : JSVal) (h : stats.isNullish = false)
    (hm : dom "mastery-chart" = true) :
    pieValue dom stats 2 = some (jsOr (stats.get "unmastered_words") (lit 3)) := by
  simp [pieValue, dataOn_mastery dom stats h hm, JSVal.index]

theorem jsOr_num_of_positive (n : JSNum) (d : JSVal) (h : n.isPositive = true) :
    jsOr (.num n) d = .num n := by
  cases n with
  | fin q =>
    have hq : 0 < q := by simpa [JSNum.isPositive] using h
    simp [jsOr, JSVal.truthy, JSNum.truthy, ne_of_gt hq]
  | nan => simp [JSNum.isPositive] at h
  | negInf => simp [JSNum.isPositive] at h
  | negZero => simp [JSNum.isPositive] at h
  | posInf => simp [jsOr, JSVal.truthy, JSNum.truthy]

/-! ## C1: the mastery counts -/

/-- C1, as stated, fails: with `mastered_words: 0`, `learning_words: 5` and
`unmastered_words: 7`, three non-negative numbers, the pie dataset is
`[87, 5, 7]` and not `[0, 5, 7]`. -/
theorem C1_zero_count_is_replaced :
    JSNum.isNonNeg (.fin 0) = true ∧ JSNum.isNonNeg (.fin 5) = true
      ∧ JSNum.isNonNeg (.fin 7) = true
      ∧ dataOn (rendered allSurfaces (.obj [("mastered_words", lit 0), ("learning_words", lit 5),
          ("unmastered_words", lit 7)])) "mastery-chart" = some (.arr [lit 87, lit 5, lit 7])
      ∧ dataOn (rendered allSurfaces (.obj [("mastered_words", lit 0), ("learning_words", lit 5),
          ("unmastered_words", lit 7)])) "mastery-chart" ≠ some (.arr [lit 0, lit 5, lit 7]) := by
  have hdata : dataOn (rendered allSurfaces (.obj [("mastered_words", lit 0),
      ("learning_words", lit 5), ("unmastered_words", lit 7)])) "mastery-chart"
      = some (.arr [lit 87, lit 5, lit 7]) := by
    rw [dataOn_mastery allSurfaces (.obj [("mastered_words", lit 0),
      ("learning_words", lit 5), ("unmastered_words", lit 7)]) rfl rfl]
    simp [JSVal.get, lookupField, jsOr, lit, JSVal.truthy, JSNum.truthy]
  refine ⟨by simp [JSNum.isNonNeg], by simp [JSNum.isNonNeg], by simp [JSNum.isNonNeg], hdata, ?_⟩
  rw [hdata]
  simp [lit]

/-- C1, amended: for every triple of strictly positive numbers `(m, l, u)`
supplied as `mastered_words`, `learning_words` and `unmastered_words`, the pie
dataset is exactly `[m, l, u]`, in that order; and a field that is not supplied
(absent or nullish) gets its default, 87, 10 or 3. -/
theorem C1_positive_counts_pass_through (dom : Dom) (stats : JSVal)
    (h : stats.isNullish = false) (hdom : dom "mastery-chart" = true) :
    (∀ m l u : JSNum, stats.get "mastered_words" = .num m →
        stats.get "learning_words" = .num l → stats.get "unmastered_words" = .num u →
        m.isPositive = true → l.isPositive = true → u.isPositive = true →
        dataOn (rendered dom stats) "mastery-chart" = some (.arr [.num m, .num l, .num u]))
      ∧ ((stats.get "mastered_words").isNullish = true →
          pieValue dom stats 0 = some (lit 87))
      ∧ ((stats.get "learning_words").isNullish = true →
          pieValue dom stats 1 = some (lit 10))
      ∧ ((stats.get "unmastered_words").isNullish = true →
          pieValue dom stats 2 = some (lit 3)) := by
  refine ⟨?_, ?_, ?_, ?_⟩
  · intro m l u hm hl hu hm0 hl0 hu0
    rw [dataOn_mastery dom stats h hdom, hm, hl, hu, jsOr_num_of_positive m _ hm0,
      jsOr_num_of_positive l _ hl0, jsOr_num_of_positive u _ hu0]
  · intro hn
    rw [pieValue_zero dom stats h hdom, jsOr_of_nullish hn]
  · intro hn
    rw [pieValue_one dom stats h hdom, jsOr_of_nullish hn]
  · intro hn
    rw [pieValue_two dom stats h hdom, jsOr_of_nullish hn]

/-- C1, amended, at `mastered_words: 50`, `learning_words: 30`,
`unmastered_words: 20` (the pie dataset is `[50, 30, 20]`) and at
`mastered_words: 50` alone (the second and third values are 10 and 3). -/
theorem C1_positive_counts_pass_through_witness :
    dataOn (rendered allSurfaces (.obj [("mastered_words", lit 50), ("learning_words", lit 30),
        ("unmastered_words", lit 20)])) "mastery-chart"
        = some (.arr [lit 50, lit 30, lit 20])
      ∧ pieValue allSurfaces (.obj [("mastered_words", lit 50)]) 1 = some (lit 10)
      ∧ pieValue allSurfaces (.obj [("mastered_words", lit 50)]) 2 = some (lit 3)
      ∧ pieValue allSurfaces (.obj [("learning_words", lit 30)]) 0 = some (lit 87) :=
  ⟨(C1_positive_counts_pass_through allSurfaces
      (.obj [("mastered_words", lit 50), ("learning_words", lit 30),
        ("unmastered_words", lit 20)]) rfl rfl).1
      (.fin 50) (.fin 30) (.fin 20) rfl rfl rfl
      (by simp [JSNum.isPositive]) (by simp [JSNum.isPositive]) (by simp [JSNum.isPositive]),
    (C1_positive_counts_pass_through allSurfaces (.obj [("mastered_words", lit 50)])
      rfl rfl).2.2.1 rfl,
    (C1_positive_counts_pass_through allSurfaces (.obj [("mastered_words", lit 50)])
      rfl rfl).2.2.2 rfl,
    (C1_positive_counts_pass_through allSurfaces (.obj [("learning_words", lit 30)])
      rfl rfl).2.1 rfl⟩

/-! ## C2: which labels the bar and line charts get -/

/-- C2, as stated, fails: with `daily_words: { labels: [], data: [] }` the
labels are present but empty, and the labels of the bar chart are the empty sequence
and not the weekday fallback. -/
theorem C2_empty_labels_are_kept :
    labelsOn (rendered allSurfaces
        (.obj [("daily_words", .obj [("labels", .arr []), ("data", .arr [])])]))
        "daily-words-chart" = some (.arr [])
      ∧ labelsOn (rendered allSurfaces
        (.obj [("daily_words", .obj [("labels", .arr []), ("data", .arr [])])]))
        "daily-words-chart"
        ≠ some (.arr [.str "周一", .str "周二", .str "周三", .str "周四", .str "周五",
            .str "周六", .str "周日"]) := by
  have hlabels : labelsOn (rendered allSurfaces
      (.obj [("daily_words", .obj [("labels", .arr []), ("data", .arr [])])]))
      "daily-words-chart" = some (.arr []) := by
    rw [labelsOn_daily allSurfaces
      (.obj [("daily_words", .obj [("labels", .arr []), ("data", .arr [])])]) rfl rfl]
    simp [JSVal.get, lookupField, optChain, JSVal.isNullish, jsOr, JSVal.truthy]
  refine ⟨hlabels, ?_⟩
  rw [hlabels]
  simp

/-- C2, amended: for every stats record, the labels of the bar chart equal
`stats.daily_words.labels` whenever that is a sequence, empty or not, and equal
the fallback weekday labels when `daily_words` or its `labels` is absent or
nullish; likewise the labels of the line chart equal `stats.weekly_trend.labels`
whenever that is a sequence, and the fallback week labels when `weekly_trend`
or its `labels` is absent or nullish. -/
theorem C2_labels_selection (dom : Dom) (stats : JSVal) (h : stats.isNullish = false)
    (hd : dom "daily-words-chart" = true) (ht : dom "learning-trend-chart" = true) :
    (∀ xs, (stats.get "daily_words").get "labels" = .arr xs →
        labelsOn (rendered dom stats) "daily-words-chart" = some (.arr xs))
      ∧ ((stats.get "daily_words").isNullish = true
          ∨ ((stats.get "daily_words").get "labels").isNullish = true →
        labelsOn (rendered dom stats) "daily-words-chart"
          = some (.arr [.str "周一", .str "周二", .str "周三", .str "周四", .str "周五",
              .str "周六", .str "周日"]))
      ∧ (∀ xs, (stats.get "weekly_trend").get "labels" = .arr xs →
        labelsOn (rendered dom stats) "learning-trend-chart" = some (.arr xs))
      ∧ ((stats.get "weekly_trend").isNullish = true
          ∨ ((stats.get "weekly_trend").get "labels").isNullish = true →
        labelsOn (rendered dom stats) "learning-trend-chart"
          = some (.arr [.str "第1周", .str "第2周", .str "第3周", .str "第4周", .str "第5周",
              .str "第6周"])) := by
  refine ⟨?_, ?_, ?_, ?_⟩
  · intro xs hx
    rw [labelsOn_daily dom stats h hd, optChain_eq_get, hx, jsOr_arr]
  · intro hx
    rw [labelsOn_daily dom stats h hd]
    rcases hx with hx | hx
    · rw [optChain_of_nullish hx, jsOr_undefined]; rfl
    · rw [optChain_eq_get, jsOr_of_nullish hx]; rfl
  · intro xs hx
    rw [labelsOn_trend dom stats h ht, optChain_eq_get, hx, jsOr_arr]
  · intro hx
    rw [labelsOn_trend dom stats h ht]
    rcases hx with hx | hx
    · rw [optChain_of_nullish hx, jsOr_undefined]; rfl
    · rw [optChain_eq_get, jsOr_of_nullish hx]; rfl

/-- C2, amended, on `{ daily_words: { labels: ["a", "b"] } }`: the bar chart
keeps the supplied labels and the line chart, whose `weekly_trend` is absent,
gets the fallback week labels. -/
theorem C2_labels_selection_witness :
    labelsOn (rendered allSurfaces
        (.obj [("daily_words", .obj [("labels", .arr [.str "a", .str "b"])])]))
        "daily-words-chart" = some (.arr [.str "a", .str "b"])
      ∧ labelsOn (rendered allSurfaces
        (.obj [("daily_words", .obj [("labels", .arr [.str "a", .str "b"])])]))
        "learning-trend-chart"
        = some (.arr [.str "第1周", .str "第2周", .str "第3周", .str "第4周", .str "第5周",
            .str "第6周"]) :=
  ⟨(C2_labels_selection allSurfaces
      (.obj [("daily_words", .obj [("labels", .arr [.str "a", .str "b"])])]) rfl rfl rfl).1
      [.str "a", .str "b"] rfl,
    (C2_labels_selection allSurfaces
      (.obj [("daily_words", .obj [("labels", .arr [.str "a", .str "b"])])]) rfl rfl rfl).2.2.2
      (Or.inl rfl)⟩

/-! ## C3: when the call completes -/

/-- C3, as stated, fails: with `stats` undefined and all three canvases in the
document, the call raises a `TypeError` (and nothing has been rendered). -/
theorem C3_undefined_stats_raises :
    raised allSurfaces .undefined = some .typeError ∧ rendered allSurfaces .undefined = [] :=
  ⟨by rw [raised_of_nullish allSurfaces .undefined rfl]; rfl,
    rendered_of_nullish allSurfaces .undefined rfl⟩

/-- C3, amended: the call completes without raising for every `stats` that is
neither `undefined` nor `null`, whichever canvases exist, and for every `stats`
at all when no canvas exists; with `stats` undefined no chart is ever built, and
with the empty record each chart that is built carries exactly the
fallback labels, data and counts. -/
theorem C3_completes_on_records (dom : Dom) (stats : JSVal)
    (h : stats.isNullish = false
      ∨ (dom "daily-words-chart" = false ∧ dom "mastery-chart" = false
          ∧ dom "learning-trend-chart" = false)) :
    raised dom stats = none
      ∧ (run dom stats).1 = .ok ()
      ∧ rendered dom .undefined = []
      ∧ (dom "daily-words-chart" = true →
          labelsOn (rendered dom (.obj [])) "daily-words-chart"
            = some (.arr [.str "周一", .str "周二", .str "周三", .str "周四", .str "周五",
                .str "周六", .str "周日"])
          ∧ dataOn (rendered dom (.obj [])) "daily-words-chart"
            = some (.arr [lit 45, lit 63, lit 78, lit 52, lit 91, lit 105, lit 68]))
      ∧ (dom "mastery-chart" = true →
          dataOn (rendered dom (.obj [])) "mastery-chart" = some (.arr [lit 87, lit 10, lit 3]))
      ∧ (dom "learning-trend-chart" = true →
          labelsOn (rendered dom (.obj [])) "learning-trend-chart"
            = some (.arr [.str "第1周", .str "第2周", .str "第3周", .str "第4周", .str "第5周",
                .str "第6周"])
          ∧ dataOn (rendered dom (.obj [])) "learning-trend-chart"
            = some (.arr [lit 250, lit 480, lit 690, lit 850, lit 1020, lit 1254])) := by
  refine ⟨?_, ?_, rendered_of_nullish dom .undefined rfl, ?_, ?_, ?_⟩
  · rcases h with h | ⟨h1, h2, h3⟩
    · exact raised_of_not_nullish dom stats h
    · cases hn : stats.isNullish
      · exact raised_of_not_nullish dom stats hn
      · simp [raised_of_nullish dom stats hn, h1, h2, h3]
  · rcases h with h | ⟨h1, h2, h3⟩
    · simp [run, createProgressCharts_of_not_nullish stats h dom [] rfl rfl rfl]
    · cases hn : stats.isNullish
      · simp [run, createProgressCharts_of_not_nullish stats hn dom [] rfl rfl rfl]
      · simp [run, createProgressCharts_of_nullish stats hn, h1, h2, h3]
  · intro hd
    rw [labelsOn_daily dom (.obj []) rfl hd, dataOn_daily dom (.obj []) rfl hd]
    exact ⟨rfl, rfl⟩
  · intro hm
    rw [dataOn_mastery dom (.obj []) rfl hm]
    rfl
  · intro ht
    rw [labelsOn_trend dom (.obj []) rfl ht, dataOn_trend dom (.obj []) rfl ht]
    exact ⟨rfl, rfl⟩

/-- C3, amended, at the empty record with all canvases present (no error, the
pie chart has the default counts) and at an undefined `stats` with no canvas
(no error). -/
theorem C3_completes_on_records_witness :
    (raised allSurfaces (.obj []) = none
        ∧ dataOn (rendered allSurfaces (.obj [])) "mastery-chart"
          = some (.arr [lit 87, lit 10, lit 3]))
      ∧ raised noSurface .undefined = none :=
  ⟨⟨(C3_completes_on_records allSurfaces (.obj []) (Or.inl rfl)).1,
      (C3_completes_on_records allSurfaces (.obj []) (Or.inl rfl)).2.2.2.2.1 rfl⟩,
    (C3_completes_on_records noSurface .undefined (Or.inr ⟨rfl, rfl, rfl⟩)).1⟩

/-! ## C4: a sub-object with only one of its two fields -/

/-- C4: for a stats record whose `daily_words` (resp. `weekly_trend`) supplies
a non-empty `data` sequence and no `labels`, the bar (resp. line) chart has that
data verbatim and the fallback labels; when it supplies a non-empty `labels`
sequence and no `data`, the chart has those labels verbatim and the fallback
data. -/
theorem C4_independent_field_fallback (dom : Dom) (stats : JSVal)
    (h : stats.isNullish = false)
    (hd : dom "daily-words-chart" = true) (ht : dom "learning-trend-chart" = true) :
    (∀ d, d ≠ [] → (stats.get "daily_words").get "data" = .arr d →
        ((stats.get "daily_words").get "labels").isNullish = true →
        dataOn (rendered dom stats) "daily-words-chart" = some (.arr d)
          ∧ labelsOn (rendered dom stats) "daily-words-chart"
            = some (.arr [.str "周一", .str "周二", .str "周三", .str "周四", .str "周五",
                .str "周六", .str "周日"]))
      ∧ (∀ s, s ≠ [] → (stats.get "daily_words").get "labels" = .arr s →
        ((stats.get "daily_words").get "data").isNullish = true →
        labelsOn (rendered dom stats) "daily-words-chart" = some (.arr s)
          ∧ dataOn (rendered dom stats) "daily-words-chart"
            = some (.arr [lit 45, lit 63, lit 78, lit 52, lit 91, lit 105, lit 68]))
      ∧ (∀ d, d ≠ [] → (stats.get "weekly_trend").get "data" = .arr d →
        ((stats.get "weekly_trend").get "labels").isNullish = true →
        dataOn (rendered dom stats) "learning-trend-chart" = some (.arr d)
          ∧ labelsOn (rendered dom stats) "learning-trend-chart"
            = some (.arr [.str "第1周", .str "第2周", .str "第3周", .str "第4周", .str "第5周",
                .str "第6周"]))
      ∧ (∀ s, s ≠ [] → (stats.get "weekly_trend").get "labels" = .arr s →
        ((stats.get "weekly_trend").get "data").isNullish = true →
        labelsOn (rendered dom stats) "learning-trend-chart" = some (.arr s)
          ∧ dataOn (rendered dom stats) "learning-trend-chart"
            = some (.arr [lit 250, lit 480, lit 690, lit 850, lit 1020, lit 1254])) := by
  refine ⟨?_, ?_, ?_, ?_⟩
  · intro d _ hdata hlabels
    rw [dataOn_daily dom stats h hd, labelsOn_daily dom stats h hd, optChain_eq_get,
      optChain_eq_get, hdata, jsOr_arr, jsOr_of_nullish hlabels]
    exact ⟨rfl, rfl⟩
  · intro s _ hlabels hdata
    rw [dataOn_daily dom stats h hd, labelsOn_daily dom stats h hd, optChain_eq_get,
      optChain_eq_get, hlabels, jsOr_arr, jsOr_of_nullish hdata]
    exact ⟨rfl, rfl⟩
  · intro d _ hdata hlabels
    rw [dataOn_trend dom stats h ht, labelsOn_trend dom stats h ht, optChain_eq_get,
      optChain_eq_get, hdata, jsOr_arr, jsOr_of_nullish hlabels]
    exact ⟨rfl, rfl⟩
  · intro s _ hlabels hdata
    rw [dataOn_trend dom stats h ht, labelsOn_trend dom stats h ht, optChain_eq_get,
      optChain_eq_get, hlabels, jsOr_arr, jsOr_of_nullish hdata]
    exact ⟨rfl, rfl⟩

/-- C4 on `{ daily_words: { data: [1,2,3,4,5,6,7] } }` (the weekday fallback
labels paired with `[1,2,3,4,5,6,7]`), and on a record whose `daily_words` has
only `labels: ["a"]` and whose `weekly_trend` has only `data: [9]`, and on one
whose `weekly_trend` has only `labels: ["w"]`. -/
theorem C4_independent_field_fallback_witness :
    (dataOn (rendered allSurfaces (.obj [("daily_words", .obj [("data",
          .arr [lit 1, lit 2, lit 3, lit 4, lit 5, lit 6, lit 7])])])) "daily-words-chart"
        = some (.arr [lit 1, lit 2, lit 3, lit 4, lit 5, lit 6, lit 7])
      ∧ labelsOn (rendered allSurfaces (.obj [("daily_words", .obj [("data",
          .arr [lit 1, lit 2, lit 3, lit 4, lit 5, lit 6, lit 7])])])) "daily-words-chart"
        = some (.arr [.str "周一", .str "周二", .str "周三", .str "周四", .str "周五",
            .str "周六", .str "周日"]))
      ∧ (labelsOn (rendered allSurfaces (.obj [("daily_words", .obj [("labels",
          .arr [.str "a"])]), ("weekly_trend", .obj [("data", .arr [lit 9])])]))
          "daily-words-chart" = some (.arr [.str "a"])
        ∧ dataOn (rendered allSurfaces (.obj [("daily_words", .obj [("labels",
          .arr [.str "a"])]), ("weekly_trend", .obj [("data", .arr [lit 9])])]))
          "daily-words-chart"
          = some (.arr [lit 45, lit 63, lit 78, lit 52, lit 91, lit 105, lit 68]))
      ∧ (dataOn (rendered allSurfaces (.obj [("daily_words", .obj [("labels",
          .arr [.str "a"])]), ("weekly_trend", .obj [("data", .arr [lit 9])])]))
          "learning-trend-chart" = some (.arr [lit 9])
        ∧ labelsOn (rendered allSurfaces (.obj [("daily_words", .obj [("labels",
          .arr [.str "a"])]), ("weekly_trend", .obj [("data", .arr [lit 9])])]))
          "learning-trend-chart"
          = some (.arr [.str "第1周", .str "第2周", .str "第3周", .str "第4周", .str "第5周",
              .str "第6周"]))
      ∧ (labelsOn (rendered allSurfaces (.obj [("weekly_trend", .obj [("labels",
          .arr [.str "w"])])])) "learning-trend-chart" = some (.arr [.str "w"])
        ∧ dataOn (rendered allSurfaces (.obj [("weekly_trend", .obj [("labels",
          .arr [.str "w"])])])) "learning-trend-chart"
          = some (.arr [lit 250, lit 480, lit 690, lit 850, lit 1020, lit 1254])) :=
  ⟨(C4_independent_field_fallback allSurfaces (.obj [("daily_words", .obj [("data",
        .arr [lit 1, lit 2, lit 3, lit 4, lit 5, lit 6, lit 7])])]) rfl rfl rfl).1
      [lit 1, lit 2, lit 3, lit 4, lit 5, lit 6, lit 7] (by simp) rfl rfl,
    (C4_independent_field_fallback allSurfaces (.obj [("daily_words", .obj [("labels",
        .arr [.str "a"])]), ("weekly_trend", .obj [("data", .arr [lit 9])])]) rfl rfl rfl).2.1
      [.str "a"] (by simp) rfl rfl,
    (C4_independent_field_fallback allSurfaces (.obj [("daily_words", .obj [("labels",
        .arr [.str "a"])]), ("weekly_trend", .obj [("data", .arr [lit 9])])]) rfl rfl rfl).2.2.1
      [lit 9] (by simp) rfl rfl,
    (C4_independent_field_fallback allSurfaces (.obj [("weekly_trend", .obj [("labels",
        .arr [.str "w"])])]) rfl rfl rfl).2.2.2
      [.str "w"] (by simp) rfl rfl⟩

/-! ## C5: the empty record -/

/-- C5: for every stats record in which `daily_words`, `weekly_trend`,
`mastered_words`, `learning_words` and `unmastered_words` are all absent (read
as `undefined`, or `null`), the bar chart has the weekday labels and data
`[45,63,78,52,91,105,68]`, the pie chart has data `[87,10,3]`, and the line
chart has the week labels and data `[250,480,690,850,1020,1254]`. -/
theorem C5_empty_input_gives_fallbacks (dom : Dom) (stats : JSVal)
    (h : stats.isNullish = false)
    (hdw : (stats.get "daily_words").isNullish = true)
    (hwt : (stats.get "weekly_trend").isNullish = true)
    (hmw : (stats.get "mastered_words").isNullish = true)
    (hlw : (stats.get "learning_words").isNullish = true)
    (huw : (stats.get "unmastered_words").isNullish = true) :
    (dom "daily-words-chart" = true →
        labelsOn (rendered dom stats) "daily-words-chart"
          = some (.arr [.str "周一", .str "周二", .str "周三", .str "周四", .str "周五",
              .str "周六", .str "周日"])
        ∧ dataOn (rendered dom stats) "daily-words-chart"
          = some (.arr [lit 45, lit 63, lit 78, lit 52, lit 91, lit 105, lit 68]))
      ∧ (dom "mastery-chart" = true →
        dataOn (rendered dom stats) "mastery-chart" = some (.arr [lit 87, lit 10, lit 3]))
      ∧ (dom "learning-trend-chart" = true →
        labelsOn (rendered dom stats) "learning-trend-chart"
          = some (.arr [.str "第1周", .str "第2周", .str "第3周", .str "第4周", .str "第5周",
              .str "第6周"])
        ∧ dataOn (rendered dom stats) "learning-trend-chart"
          = some (.arr [lit 250, lit 480, lit 690, lit 850, lit 1020, lit 1254])) := by
  refine ⟨?_, ?_, ?_⟩
  · intro hd
    rw [labelsOn_daily dom stats h hd, dataOn_daily dom stats h hd, optChain_of_nullish hdw,
      optChain_of_nullish hdw, jsOr_undefined, jsOr_undefined]
    exact ⟨rfl, rfl⟩
  · intro hm
    rw [dataOn_mastery dom stats h hm, jsOr_of_nullish hmw, jsOr_of_nullish hlw,
      jsOr_of_nullish huw]
  · intro ht
    rw [labelsOn_trend dom stats h ht, dataOn_trend dom stats h ht, optChain_of_nullish hwt,
      optChain_of_nullish hwt, jsOr_undefined, jsOr_undefined]
    exact ⟨rfl, rfl⟩

/-- C5 on the empty record with all three canvases present. -/
theorem C5_empty_input_gives_fallbacks_witness :
    (labelsOn (rendered allSurfaces (.obj [])) "daily-words-chart"
          = some (.arr [.str "周一", .str "周二", .str "周三", .str "周四", .str "周五",
              .str "周六", .str "周日"])
        ∧ dataOn (rendered allSurfaces (.obj [])) "daily-words-chart"
          = some (.arr [lit 45, lit 63, lit 78, lit 52, lit 91, lit 105, lit 68]))
      ∧ dataOn (rendered allSurfaces (.obj [])) "mastery-chart"
          = some (.arr [lit 87, lit 10, lit 3])
      ∧ (labelsOn (rendered allSurfaces (.obj [])) "learning-trend-chart"
          = some (.arr [.str "第1周", .str "第2周", .str "第3周", .str "第4周", .str "第5周",
              .str "第6周"])
        ∧ dataOn (rendered allSurfaces (.obj [])) "learning-trend-chart"
          = some (.arr [lit 250, lit 480, lit 690, lit 850, lit 1020, lit 1254])) :=
  ⟨(C5_empty_input_gives_fallbacks allSurfaces (.obj []) rfl rfl rfl rfl rfl rfl).1 rfl,
    (C5_empty_input_gives_fallbacks allSurfaces (.obj []) rfl rfl rfl rfl rfl rfl).2.1 rfl,
    (C5_empty_input_gives_fallbacks allSurfaces (.obj []) rfl rfl rfl rfl rfl rfl).2.2 rfl⟩

/-! ## C6: the three pie values default one by one -/

/-- C6: the pie dataset has three values; each is the default of its own field
(87 for `mastered_words`, 10 for `learning_words`, 3 for `unmastered_words`)
when that field is absent or nullish, whatever the other two fields are; a
supplied strictly positive number is kept; and each value depends only on its
own field: two records that agree on a field get the same value for it. -/
theorem C6_per_field_defaults (dom : Dom) (s t : JSVal)
    (hs : s.isNullish = false) (ht : t.isNullish = false)
    (hm : dom "mastery-chart" = true) :
    (∃ a b c, dataOn (rendered dom s) "mastery-chart" = some (.arr [a, b, c]))
      ∧ ((s.get "mastered_words").isNullish = true → pieValue dom s 0 = some (lit 87))
      ∧ ((s.get "learning_words").isNullish = true → pieValue dom s 1 = some (lit 10))
      ∧ ((s.get "unmastered_words").isNullish = true → pieValue dom s 2 = some (lit 3))
      ∧ (∀ n, s.get "mastered_words" = .num n → n.isPositive = true →
          pieValue dom s 0 = some (.num n))
      ∧ (∀ n, s.get "learning_words" = .num n → n.isPositive = true →
          pieValue dom s 1 = some (.num n))
      ∧ (∀ n, s.get "unmastered_words" = .num n → n.isPositive = true →
          pieValue dom s 2 = some (.num n))
      ∧ (s.get "mastered_words" = t.get "mastered_words" →
          pieValue dom s 0 = pieValue dom t 0)
      ∧ (s.get "learning_words" = t.get "learning_words" →
          pieValue dom s 1 = pieValue dom t 1)
      ∧ (s.get "unmastered_words" = t.get "unmastered_words" →
          pieValue dom s 2 = pieValue dom t 2) := by
  refine ⟨⟨_, _, _, dataOn_mastery dom s hs hm⟩, ?_, ?_, ?_, ?_, ?_, ?_, ?_, ?_, ?_⟩
  · intro hn
    rw [pieValue_zero dom s hs hm, jsOr_of_nullish hn]
  · intro hn
    rw [pieValue_one dom s hs hm, jsOr_of_nullish hn]
  · intro hn
    rw [pieValue_two dom s hs hm, jsOr_of_nullish hn]
  · intro n hn hpos
    rw [pieValue_zero dom s hs hm, hn, jsOr_num_of_positive n _ hpos]
  · intro n hn hpos
    rw [pieValue_one dom s hs hm, hn, jsOr_num_of_positive n _ hpos]
  · intro n hn hpos
    rw [pieValue_two dom s hs hm, hn, jsOr_num_of_positive n _ hpos]
  · intro heq
    rw [pieValue_zero dom s hs hm, pieValue_zero dom t ht hm, heq]
  · intro heq
    rw [pieValue_one dom s hs hm, pieValue_one dom t ht hm, heq]
  · intro heq
    rw [pieValue_two dom s hs hm, pieValue_two dom t ht hm, heq]

/-- C6 on `{ mastered_words: 50, learning_words: 30 }`: the pie values are 50,
30 and 3; and the first value is the same as for
`{ mastered_words: 50, learning_words: 1, unmastered_words: 2 }`. -/
theorem C6_per_field_defaults_witness :
    pieValue allSurfaces (.obj [("mastered_words", lit 50), ("learning_words", lit 30)]) 0
        = some (lit 50)
      ∧ pieValue allSurfaces (.obj [("mastered_words", lit 50), ("learning_words", lit 30)]) 1
        = some (lit 30)
      ∧ pieValue allSurfaces (.obj [("mastered_words", lit 50), ("learning_words", lit 30)]) 2
        = some (lit 3)
      ∧ pieValue allSurfaces (.obj [("mastered_words", lit 50), ("learning_words", lit 30)]) 0
        = pieValue allSurfaces (.obj [("mastered_words", lit 50), ("learning_words", lit 1),
            ("unmastered_words", lit 2)]) 0 :=
  ⟨(C6_per_field_defaults allSurfaces
      (.obj [("mastered_words", lit 50), ("learning_words", lit 30)])
      (.obj [("mastered_words", lit 50), ("learning_words", lit 1), ("unmastered_words", lit 2)])
      rfl rfl rfl).2.2.2.2.1 (.fin 50) rfl (by simp [JSNum.isPositive]),
    (C6_per_field_defaults allSurfaces
      (.obj [("mastered_words", lit 50), ("learning_words", lit 30)])
      (.obj [("mastered_words", lit 50), ("learning_words", lit 1), ("unmastered_words", lit 2)])
      rfl rfl rfl).2.2.2.2.2.1 (.fin 30) rfl (by simp [JSNum.isPositive]),
    (C6_per_field_defaults allSurfaces
      (.obj [("mastered_words", lit 50), ("learning_words", lit 30)])
      (.obj [("mastered_words", lit 50), ("learning_words", lit 1), ("unmastered_words", lit 2)])
      rfl rfl rfl).2.2.2.1 rfl,
    (C6_per_field_defaults allSurfaces
      (.obj [("mastered_words", lit 50), ("learning_words", lit 30)])
      (.obj [("mastered_words", lit 50), ("learning_words", lit 1), ("unmastered_words", lit 2)])
      rfl rfl rfl).2.2.2.2.2.2.2.1 rfl⟩

/-! ## C7: which charts are rendered, and in which order -/

/-- C7: for a stats record, the renderer is invoked exactly for the
subsequence of (bar on `daily-words-chart`, pie on `mastery-chart`, line on
`learning-trend-chart`), in that order, whose canvas exists, and the call does
not raise; and when no canvas exists nothing is rendered and nothing is raised,
for any `stats` value. -/
theorem C7_surface_gating (dom : Dom) (stats : JSVal) :
    (stats.isNullish = false →
        raised dom stats = none
          ∧ (rendered dom stats).map (fun c => (c.surface, kindOf c.config))
            = [("daily-words-chart", JSVal.str "bar"), ("mastery-chart", JSVal.str "pie"),
                ("learning-trend-chart", JSVal.str "line")].filter (fun p => dom p.1))
      ∧ (dom "daily-words-chart" = false ∧ dom "mastery-chart" = false
          ∧ dom "learning-trend-chart" = false →
        rendered dom stats = [] ∧ raised dom stats = none) := by
  constructor
  · intro h
    refine ⟨raised_of_not_nullish dom stats h, ?_⟩
    rw [rendered_of_not_nullish dom stats h]
    cases hd : dom "daily-words-chart" <;> cases hm : dom "mastery-chart" <;>
      cases ht : dom "learning-trend-chart" <;>
      simp [specsFor, hd, hm, ht, List.filter, kindOf, dailyWordsSpec, masterySpec, trendSpec,
        barConfig, pieConfig, lineConfig, JSVal.get, lookupField]
  · rintro ⟨h1, h2, h3⟩
    cases hn : stats.isNullish
    · exact ⟨by simp [rendered_of_not_nullish dom stats hn, specsFor, h1, h2, h3],
        raised_of_not_nullish dom stats hn⟩
    · exact ⟨rendered_of_nullish dom stats hn,
        by simp [raised_of_nullish dom stats hn, h1, h2, h3]⟩

/-- C7 on the empty record in a document without the `daily-words-chart`
canvas (the pie chart, then the line chart), and on an undefined `stats` in a
document without any canvas. -/
theorem C7_surface_gating_witness :
    (raised withoutDailyCanvas (.obj []) = none
        ∧ (rendered withoutDailyCanvas (.obj [])).map (fun c => (c.surface, kindOf c.config))
          = [("mastery-chart", JSVal.str "pie"), ("learning-trend-chart", JSVal.str "line")])
      ∧ (rendered noSurface .undefined = [] ∧ raised noSurface .undefined = none) :=
  ⟨(C7_surface_gating withoutDailyCanvas (.obj [])).1 rfl,
    (C7_surface_gating noSurface .undefined).2 ⟨rfl, rfl, rfl⟩⟩

/-! ## C8: what does not depend on the input -/

theorem chartOn_rendered_nullish (dom : Dom) (stats : JSVal) (h : stats.isNullish = true)
    (id : String) : chartOn (rendered dom stats) id = none := by
  rw [rendered_of_nullish dom stats h]; rfl

theorem eq_dailyWordsSpec_of_chartOn (dom : Dom) (stats cfg : JSVal)
    (hc : chartOn (rendered dom stats) "daily-words-chart" = some cfg) :
    stats.isNullish = false ∧ cfg = dailyWordsSpec stats := by
  cases hn : stats.isNullish
  · refine ⟨rfl, ?_⟩
    rw [rendered_of_not_nullish dom stats hn] at hc
    cases hd : dom "daily-words-chart" <;> cases hm : dom "mastery-chart" <;>
      cases ht : dom "learning-trend-chart" <;>
      simp [specsFor, hd, hm, ht, chartOn] at hc <;> exact hc.symm
  · rw [chartOn_rendered_nullish dom stats hn] at hc
    cases hc

theorem eq_masterySpec_of_chartOn (dom : Dom) (stats cfg : JSVal)
    (hc : chartOn (rendered dom stats) "mastery-chart" = some cfg) :
    stats.isNullish = false ∧ cfg = masterySpec stats := by
  cases hn : stats.isNullish
  · refine ⟨rfl, ?_⟩
    rw [rendered_of_not_nullish dom stats hn] at hc
    cases hd : dom "daily-words-chart" <;> cases hm : dom "mastery-chart" <;>
      cases ht : dom "learning-trend-chart" <;>
      simp [specsFor, hd, hm, ht, chartOn] at hc <;> exact hc.symm
  · rw [chartOn_rendered_nullish dom stats hn] at hc
    cases hc

theorem eq_trendSpec_of_chartOn (dom : Dom) (stats cfg : JSVal)
    (hc : chartOn (rendered dom stats) "learning-trend-chart" = some cfg) :
    stats.isNullish = false ∧ cfg = trendSpec stats := by
  cases hn : stats.isNullish
  · refine ⟨rfl, ?_⟩
    rw [rendered_of_not_nullish dom stats hn] at hc
    cases hd : dom "daily-words-chart" <;> cases hm : dom "mastery-chart" <;>
      cases ht : dom "learning-trend-chart" <;>
      simp [specsFor, hd, hm, ht, chartOn] at hc <;> exact hc.symm
  · rw [chartOn_rendered_nullish dom stats hn] at hc
    cases hc

/-- C8: whatever the `stats`, a bar chart that is rendered has kind `bar`, one
series named "学习单词数" with the fixed colours and border width 1, and options
that force the value axis to begin at zero; a pie chart has kind `pie`, the
labels "已掌握", "学习中", "未掌握", one series of three values with the fixed
colours and border width 1, and options without any axis entry; a line chart has
kind `line`, one series named "累计学习单词" with the fixed colours, tension 0.4
and fill enabled, and options that force the value axis to begin at zero.  So
the configurations built from two inputs differ at most in the bar labels and
data, the pie data, and the line labels and data. -/
theorem C8_constant_parts (dom : Dom) (stats : JSVal) :
    (∀ cfg, chartOn (rendered dom stats) "daily-words-chart" = some cfg →
        kindOf cfg = .str "bar"
          ∧ (cfg.get "data").get "datasets" = .arr [.obj [
              ("label", .str "学习单词数"),
              ("data", dataOf cfg),
              ("backgroundColor", .str "rgba(52, 152, 219, 0.6)"),
              ("borderColor", .str "rgba(52, 152, 219, 1)"),
              ("borderWidth", lit 1)]]
          ∧ optionsOf cfg = .obj [
              ("responsive", .bool true),
              ("maintainAspectRatio", .bool false),
              ("scales", .obj [("y", .obj [("beginAtZero", .bool true)])])]
          ∧ cfg = barConfig (labelsOf cfg) (dataOf cfg))
      ∧ (∀ cfg, chartOn (rendered dom stats) "mastery-chart" = some cfg →
        kindOf cfg = .str "pie"
          ∧ labelsOf cfg = .arr [.str "已掌握", .str "学习中", .str "未掌握"]
          ∧ (∃ a b c, dataOf cfg = .arr [a, b, c])
          ∧ (cfg.get "data").get "datasets" = .arr [.obj [
              ("data", dataOf cfg),
              ("backgroundColor", .arr [.str "rgba(39, 174, 96, 0.7)",
                .str "rgba(243, 156, 18, 0.7)", .str "rgba(231, 76, 60, 0.7)"]),
              ("borderColor", .arr [.str "rgba(39, 174, 96, 1)",
                .str "rgba(243, 156, 18, 1)", .str "rgba(231, 76, 60, 1)"]),
              ("borderWidth", lit 1)]]
          ∧ optionsOf cfg = .obj [
              ("responsive", .bool true),
              ("maintainAspectRatio", .bool false)]
          ∧ (optionsOf cfg).get "scales" = .undefined
          ∧ cfg = pieConfig ((dataOf cfg).index 0) ((dataOf cfg).index 1)
              ((dataOf cfg).index 2))
      ∧ (∀ cfg, chartOn (rendered dom stats) "learning-trend-chart" = some cfg →
        kindOf cfg = .str "line"
          ∧ (cfg.get "data").get "datasets" = .arr [.obj [
              ("label", .str "累计学习单词"),
              ("data", dataOf cfg),
              ("borderColor", .str "rgba(52, 152, 219, 1)"),
              ("backgroundColor", .str "rgba(52, 152, 219, 0.1)"),
              ("tension", lit 0.4),
              ("fill", .bool true)]]
          ∧ optionsOf cfg = .obj [
              ("responsive", .bool true),
              ("maintainAspectRatio", .bool false),
              ("scales", .obj [("y", .obj [("beginAtZero", .bool true)])])]
          ∧ cfg = lineConfig (labelsOf cfg) (dataOf cfg)) := by
  refine ⟨?_, ?_, ?_⟩
  · intro cfg hc
    obtain ⟨-, rfl⟩ := eq_dailyWordsSpec_of_chartOn dom stats cfg hc
    simp [dailyWordsSpec, barConfig, kindOf, dataOf, seriesOf, labelsOf, optionsOf, JSVal.get,
      JSVal.index, lookupField]
  · intro cfg hc
    obtain ⟨-, rfl⟩ := eq_masterySpec_of_chartOn dom stats cfg hc
    simp [masterySpec, pieConfig, kindOf, dataOf, seriesOf, labelsOf, optionsOf, JSVal.get,
      JSVal.index, lookupField]
  · intro cfg hc
    obtain ⟨-, rfl⟩ := eq_trendSpec_of_chartOn dom stats cfg hc
    simp [trendSpec, lineConfig, kindOf, dataOf, seriesOf, labelsOf, optionsOf, JSVal.get,
      JSVal.index, lookupField]

/-- C8 on the record `{ mastered_words: 5 }` with all three canvases present:
the kinds of the three rendered charts and the labels of the pie chart. -/
theorem C8_constant_parts_witness :
    kindOf (dailyWordsSpec (.obj [("mastered_words", lit 5)])) = .str "bar"
      ∧ (kindOf (masterySpec (.obj [("mastered_words", lit 5)])) = .str "pie"
        ∧ labelsOf (masterySpec (.obj [("mastered_words", lit 5)]))
          = .arr [.str "已掌握", .str "学习中", .str "未掌握"])
      ∧ kindOf (trendSpec (.obj [("mastered_words", lit 5)])) = .str "line" :=
  ⟨((C8_constant_parts allSurfaces (.obj [("mastered_words", lit 5)])).1
      (dailyWordsSpec (.obj [("mastered_words", lit 5)])) rfl).1,
    ⟨((C8_constant_parts allSurfaces (.obj [("mastered_words", lit 5)])).2.1
        (masterySpec (.obj [("mastered_words", lit 5)])) rfl).1,
      ((C8_constant_parts allSurfaces (.obj [("mastered_words", lit 5)])).2.1
        (masterySpec (.obj [("mastered_words", lit 5)])) rfl).2.1⟩,
    ((C8_constant_parts allSurfaces (.obj [("mastered_words", lit 5)])).2.2
      (trendSpec (.obj [("mastered_words", lit 5)])) rfl).1⟩

/-! ## C9: building twice -/

theorem specsFor_congr (stats : JSVal) (dom1 dom2 : Dom)
    (hd : dom1 "daily-words-chart" = dom2 "daily-words-chart")
    (hm : dom1 "mastery-chart" = dom2 "mastery-chart")
    (ht : dom1 "learning-trend-chart" = dom2 "learning-trend-chart") :
    specsFor dom1 stats = specsFor dom2 stats := by
  simp [specsFor, hd, hm, ht]

/-- C9, as stated, fails for two calls in a row on the same document: on the
empty record with all three canvases present the first call hands the renderer
three configurations, and the second call, made while those charts are still
attached, hands over only the bar configuration, is refused by the renderer and
ends with an error; the pie and line configurations are not built again. -/
theorem C9_second_call_is_refused :
    ((rendered allSurfaces (.obj [])).map (fun c => c.surface)
        = ["daily-words-chart", "mastery-chart", "learning-trend-chart"]
      ∧ raised allSurfaces (.obj []) = none)
      ∧ (createProgressCharts (.obj []) allSurfaces (rendered allSurfaces (.obj []))).1
        = .error .canvasInUse
      ∧ (appended (.obj []) allSurfaces (rendered allSurfaces (.obj []))).map
          (fun c => c.surface) = ["daily-words-chart"]
      ∧ appended (.obj []) allSurfaces (rendered allSurfaces (.obj []))
        ≠ rendered allSurfaces (.obj []) := by
  refine ⟨⟨rfl, rfl⟩, rfl, rfl, ?_⟩
  intro heq
  have hlen := congrArg List.length heq
  have h1 : (appended (.obj []) allSurfaces (rendered allSurfaces (.obj []))).length = 1 := rfl
  have h3 : (rendered allSurfaces (.obj [])).length = 3 := rfl
  rw [h1, h3] at hlen
  exact absurd hlen (by decide)

/-- C9, amended: two calls from the same `stats`, in documents with the same
set of existing canvases, each made while none of the three canvases carries a
chart (whatever else was rendered before), end the same way and hand the
renderer the same configurations, in the same order: those of a call from the
empty log. -/
theorem C9_same_build_on_free_canvases (stats : JSVal) (dom1 dom2 : Dom)
    (log1 log2 : List Call)
    (hd : dom1 "daily-words-chart" = dom2 "daily-words-chart")
    (hm : dom1 "mastery-chart" = dom2 "mastery-chart")
    (ht : dom1 "learning-trend-chart" = dom2 "learning-trend-chart")
    (hfree1 : canvasInUse log1 "daily-words-chart" = false
      ∧ canvasInUse log1 "mastery-chart" = false
      ∧ canvasInUse log1 "learning-trend-chart" = false)
    (hfree2 : canvasInUse log2 "daily-words-chart" = false
      ∧ canvasInUse log2 "mastery-chart" = false
      ∧ canvasInUse log2 "learning-trend-chart" = false) :
    (createProgressCharts stats dom1 log1).1 = (createProgressCharts stats dom2 log2).1
      ∧ appended stats dom1 log1 = appended stats dom2 log2
      ∧ appended stats dom1 log1 = rendered dom1 stats
      ∧ (createProgressCharts stats dom1 log1).2 = log1 ++ rendered dom1 stats := by
  obtain ⟨f1, f2, f3⟩ := hfree1
  obtain ⟨g1, g2, g3⟩ := hfree2
  cases hn : stats.isNullish
  · simp [appended, rendered, run,
      createProgressCharts_of_not_nullish stats hn dom1 log1 f1 f2 f3,
      createProgressCharts_of_not_nullish stats hn dom2 log2 g1 g2 g3,
      createProgressCharts_of_not_nullish stats hn dom1 [] rfl rfl rfl,
      specsFor_congr stats dom1 dom2 hd hm ht]
  · simp [appended, rendered, run, createProgressCharts_of_nullish stats hn, hd, hm, ht]

/-- C9, amended, on `{ mastered_words: 5 }`: a call in the document with all
canvases made after a chart was drawn on some other canvas, and a call from the
empty log in the document that holds the three canvases and nothing else, hand
over the same three configurations. -/
theorem C9_same_build_on_free_canvases_witness :
    appended (.obj [("mastered_words", lit 5)]) allSurfaces [⟨"other-chart", .null⟩]
        = appended (.obj [("mastered_words", lit 5)]) onlyTheThree []
      ∧ (appended (.obj [("mastered_words", lit 5)]) allSurfaces [⟨"other-chart", .null⟩]).map
          (fun c => c.surface)
        = ["daily-words-chart", "mastery-chart", "learning-trend-chart"] :=
  ⟨(C9_same_build_on_free_canvases (.obj [("mastered_words", lit 5)]) allSurfaces onlyTheThree
      [⟨"other-chart", .null⟩] [] rfl rfl rfl ⟨rfl, rfl, rfl⟩ ⟨rfl, rfl, rfl⟩).2.1,
    rfl⟩

/-! ## C10: labels and data have the same length -/

/-- C10: for a stats record in which each of `daily_words` and `weekly_trend` is
absent, or has neither `labels` nor `data`, or has both as sequences of equal
length, the labels and data of the bar chart are sequences of the same length and so
are those of the line chart; the length is 7 for the bar chart and 6 for the line chart
when the fallbacks are used. -/
theorem C10_labels_data_same_length (dom : Dom) (stats : JSVal)
    (h : stats.isNullish = false)
    (hd : dom "daily-words-chart" = true) (ht : dom "learning-trend-chart" = true)
    (hdw : (stats.get "daily_words").isNullish = true
      ∨ (((stats.get "daily_words").get "labels").isNullish = true
          ∧ ((stats.get "daily_words").get "data").isNullish = true)
      ∨ ∃ ls ds, (stats.get "daily_words").get "labels" = .arr ls
          ∧ (stats.get "daily_words").get "data" = .arr ds ∧ ls.length = ds.length)
    (hwt : (stats.get "weekly_trend").isNullish = true
      ∨ (((stats.get "weekly_trend").get "labels").isNullish = true
          ∧ ((stats.get "weekly_trend").get "data").isNullish = true)
      ∨ ∃ ls ds, (stats.get "weekly_trend").get "labels" = .arr ls
          ∧ (stats.get "weekly_trend").get "data" = .arr ds ∧ ls.length = ds.length) :
    (∃ n, (labelsOn (rendered dom stats) "daily-words-chart").bind lengthOf = some n
        ∧ (dataOn (rendered dom stats) "daily-words-chart").bind lengthOf = some n
        ∧ ((stats.get "daily_words").isNullish = true
            ∨ (((stats.get "daily_words").get "labels").isNullish = true
              ∧ ((stats.get "daily_words").get "data").isNullish = true) → n = 7))
      ∧ (∃ n, (labelsOn (rendered dom stats) "learning-trend-chart").bind lengthOf = some n
        ∧ (dataOn (rendered dom stats) "learning-trend-chart").bind lengthOf = some n
        ∧ ((stats.get "weekly_trend").isNullish = true
            ∨ (((stats.get "weekly_trend").get "labels").isNullish = true
              ∧ ((stats.get "weekly_trend").get "data").isNullish = true) → n = 6)) := by
  constructor
  · rw [labelsOn_daily dom stats h hd, dataOn_daily dom stats h hd]
    rcases hdw with hn | ⟨hl, hdat⟩ | ⟨ls, ds, hl, hdat, hlen⟩
    · rw [optChain_of_nullish hn, optChain_of_nullish hn, jsOr_undefined, jsOr_undefined]
      exact ⟨7, rfl, rfl, fun _ => rfl⟩
    · rw [optChain_eq_get, optChain_eq_get, jsOr_of_nullish hl, jsOr_of_nullish hdat]
      exact ⟨7, rfl, rfl, fun _ => rfl⟩
    · rw [optChain_eq_get, optChain_eq_get, hl, hdat, jsOr_arr, jsOr_arr]
      refine ⟨ls.length, rfl, by simp [lengthOf, hlen], ?_⟩
      rintro (hn | ⟨hl2, -⟩)
      · have hu : (stats.get "daily_words").get "labels" = .undefined := by
          rw [← optChain_eq_get, optChain_of_nullish hn]
        rw [hu] at hl
        cases hl
      · simp [JSVal.isNullish] at hl2
  · rw [labelsOn_trend dom stats h ht, dataOn_trend dom stats h ht]
    rcases hwt with hn | ⟨hl, hdat⟩ | ⟨ls, ds, hl, hdat, hlen⟩
    · rw [optChain_of_nullish hn, optChain_of_nullish hn, jsOr_undefined, jsOr_undefined]
      exact ⟨6, rfl, rfl, fun _ => rfl⟩
    · rw [optChain_eq_get, optChain_eq_get, jsOr_of_nullish hl, jsOr_of_nullish hdat]
      exact ⟨6, rfl, rfl, fun _ => rfl⟩
    · rw [optChain_eq_get, optChain_eq_get, hl, hdat, jsOr_arr, jsOr_arr]
      refine ⟨ls.length, rfl, by simp [lengthOf, hlen], ?_⟩
      rintro (hn | ⟨hl2, -⟩)
      · have hu : (stats.get "weekly_trend").get "labels" = .undefined := by
          rw [← optChain_eq_get, optChain_of_nullish hn]
        rw [hu] at hl
        cases hl
      · simp [JSVal.isNullish] at hl2

/-- C10 on `{ daily_words: { labels: ["a","b"], data: [1,2] } }`: the bar chart
has two labels and two values, the line chart, whose `weekly_trend` is absent,
has six of each. -/
theorem C10_labels_data_same_length_witness :
    (∃ n, (labelsOn (rendered allSurfaces (.obj [("daily_words", .obj [
          ("labels", .arr [.str "a", .str "b"]), ("data", .arr [lit 1, lit 2])])]))
          "daily-words-chart").bind lengthOf = some n
        ∧ (dataOn (rendered allSurfaces (.obj [("daily_words", .obj [
          ("labels", .arr [.str "a", .str "b"]), ("data", .arr [lit 1, lit 2])])]))
          "daily-words-chart").bind lengthOf = some n)
      ∧ (∃ n, (labelsOn (rendered allSurfaces (.obj [("daily_words", .obj [
          ("labels", .arr [.str "a", .str "b"]), ("data", .arr [lit 1, lit 2])])]))
          "learning-trend-chart").bind lengthOf = some n
        ∧ (dataOn (rendered allSurfaces (.obj [("daily_words", .obj [
          ("labels", .arr [.str "a", .str "b"]), ("data", .arr [lit 1, lit 2])])]))
          "learning-trend-chart").bind lengthOf = some n
        ∧ n = 6) := by
  have key := C10_labels_data_same_length allSurfaces
    (.obj [("daily_words", .obj [
      ("labels", .arr [.str "a", .str "b"]), ("data", .arr [lit 1, lit 2])])])
    rfl rfl rfl
    (Or.inr (Or.inr ⟨[.str "a", .str "b"], [lit 1, lit 2], rfl, rfl, rfl⟩))
    (Or.inl rfl)
  obtain ⟨⟨n, h1, h2, -⟩, ⟨k, h3, h4, h5⟩⟩ := key
  exact ⟨⟨n, h1, h2⟩, ⟨k, h3, h4, h5 (Or.inl rfl)⟩⟩

end ProgressCharts
